import Mathlib

/-!
Verification development for LoginScriptPlugin
(src/LoginScriptPlugin/LoginScriptPlugin.c).

Shallow embedding conventions:

* A filesystem path is modelled as a list of path components ordered
  LEAF FIRST: the path "/dir/script" is `["script", "dir"]` and the
  filesystem root "/" is `[]`.  The C code computes the parent of a path
  with dirname(); on this representation dirname is `List.tail`, and the
  base case `path == "/"` is `path = []`.
* The filesystem is a function from paths to optional stat records
  (`lstat` failing is `none`).  Mode bits are kept as a raw Nat, exactly
  as `st_mode` in `struct stat`, and the POSIX bit masks used by the C
  code are defined below with their macOS values.
* The nondeterministic environment of ExecuteScript (does fork fail,
  does fcntl fail during descriptor sanitization, does execl fail, what
  does the script itself do, does waitpid fail, and what garbage happens
  to sit in the never-initialized childStatus variable when waitpid
  fails) is an explicit `ExecWorld` record threaded through the model.
-/

/-! ### stat(2) mode bits (macOS values, as used by the C code) -/

def S_IFMT : Nat := 0o170000
def S_IFLNK : Nat := 0o120000
def S_IWOTH : Nat := 0o000002
def S_IWGRP : Nat := 0o000020
def S_IXUSR : Nat := 0o000100

/-- `S_ISLNK(m)` from sys/stat.h: the file type bits equal `S_IFLNK`. -/
def S_ISLNK (m : Nat) : Bool := m &&& S_IFMT == S_IFLNK

/-- The fields of `struct stat` that VerifyScript reads. -/
structure FileStat where
  st_dev : Nat
  st_mode : Nat
  st_uid : Nat
  st_gid : Nat
deriving DecidableEq, Repr

/-- A path, as a list of components with the deepest component first;
`[]` is the filesystem root "/". -/
abbrev FsPath := List String

/-- A filesystem: what `lstat` returns for each path (`none` = error). -/
abbrev FS := FsPath → Option FileStat

/-! ### VerifyScript (LoginScriptPlugin.c lines 217-281)

The C function is a chain of early `return false` checks (lines
222-268) followed, when every check passed, by `return true` at the
root or a recursive call on `dirname(path)` (lines 270-280).  The check
chain is factored into `verifyNode`, with every check of the source in
source order; `VerifyScript` then performs the recursion.  On the
leaf-first list representation `dirname` is `List.tail`. -/

def verifyNode (fs : FS) (path : FsPath) : Bool :=
  match fs [] with
  | none => false          -- Reject if we cannot stat the root.
  | some rootInfo =>
    match fs path with
    | none => false        -- Reject if we cannot stat the path.
    | some info =>
      if info.st_dev ≠ rootInfo.st_dev then false      -- not on boot volume
      else if S_ISLNK info.st_mode then false          -- symbolic link
      else if info.st_uid ≠ 0 then false               -- not owned by root
      else if info.st_mode &&& S_IWOTH ≠ 0 then false  -- world writable
      else if info.st_mode &&& S_IWGRP ≠ 0 ∧ info.st_gid ≠ 0 then false
        -- group writable and gid is not wheel
      else if info.st_mode &&& S_IXUSR = 0 then false  -- not executable
      else true

def VerifyScript (fs : FS) : FsPath → Bool
  | [] => verifyNode fs []
  | a :: parent => verifyNode fs (a :: parent) && VerifyScript fs parent

/-- The chain of filesystem nodes VerifyScript walks: the path itself,
all of its ancestors, and the root. -/
def chain : FsPath → List FsPath
  | [] => [[]]
  | a :: ps => (a :: ps) :: chain ps

/-- If VerifyScript succeeds, every node of the chain (the path, its
ancestors, the root) passed the full per-node check sequence. -/
theorem verify_chain_nodes (fs : FS) (p : FsPath)
    (h : VerifyScript fs p = true) : ∀ q ∈ chain p, verifyNode fs q = true := by
  induction p with
  | nil =>
    intro q hq
    simp only [chain, List.mem_singleton] at hq
    subst hq
    exact h
  | cons a ps ih =>
    rw [show VerifyScript fs (a :: ps)
          = (verifyNode fs (a :: ps) && VerifyScript fs ps) from rfl,
        Bool.and_eq_true] at h
    intro q hq
    simp only [chain, List.mem_cons] at hq
    rcases hq with rfl | hq
    · exact h.1
    · exact ih h.2 q hq

/-- Unfolding of the per-node check into a propositional form. -/
theorem verifyNode_eq_true_iff (fs : FS) (q : FsPath) :
    verifyNode fs q = true ↔
      ∃ rootInfo info, fs [] = some rootInfo ∧ fs q = some info ∧
        info.st_dev = rootInfo.st_dev ∧
        S_ISLNK info.st_mode = false ∧
        info.st_uid = 0 ∧
        info.st_mode &&& S_IWOTH = 0 ∧
        ¬(info.st_mode &&& S_IWGRP ≠ 0 ∧ info.st_gid ≠ 0) ∧
        info.st_mode &&& S_IXUSR ≠ 0 := by
  unfold verifyNode
  cases hr : fs [] with
  | none => simp
  | some r =>
    cases hi : fs q with
    | none => simp
    | some i =>
      dsimp only
      split_ifs <;> simp_all

/-! ### ExecuteScript (LoginScriptPlugin.c lines 286-367)

The parent classifies the child with the sys/wait.h macros applied to
the raw integer `childStatus`.  macOS encodes a normal exit with status
`s` as the word `(s &&& 0xff) <<< 8` and death by signal `g`
(1 ≤ g ≤ 126) as the word `g`.  Crucially, the C code reads
`childStatus` even when `waitpid` failed and left it uninitialized;
the model exposes that indeterminate word as `ExecWorld.strayStatus`. -/

/-- sysexits.h: EX_OSERR, the status the child exits with when execl
fails. -/
def EX_OSERR : Nat := 71

/-- sysexits.h: EX_NOPERM, the reserved "deny authorization" status. -/
def EX_NOPERM : Nat := 77

/-- sys/wait.h `_WSTATUS(x)`. -/
def wstatus (x : Nat) : Nat := x &&& 0o177

/-- sys/wait.h `WIFSIGNALED(x)`. -/
def WIFSIGNALED (x : Nat) : Bool := wstatus x != 0o177 && wstatus x != 0

/-- sys/wait.h `WEXITSTATUS(x)`. -/
def WEXITSTATUS (x : Nat) : Nat := (x >>> 8) &&& 0xff

/-- The two possible authorization results this plugin ever reports. -/
inductive AuthorizationResult where
  | allow
  | deny
deriving DecidableEq, Repr

/-- How a child process terminated, as reported by the kernel. -/
inductive ChildOutcome where
  | exited (status : Nat)
  | signaled (sig : Nat)
deriving DecidableEq, Repr

/-- A well-formed kernel report: exit statuses are one byte, and
terminating signals are nonzero and below the 0o177 stop marker. -/
def ChildOutcome.wf : ChildOutcome → Prop
  | .exited s => s < 256
  | .signaled g => 0 < g ∧ g < 127

instance (o : ChildOutcome) : Decidable o.wf := by
  cases o <;> simp only [ChildOutcome.wf] <;> infer_instance

/-- The wait-status word the kernel hands to waitpid for an outcome. -/
def waitWord : ChildOutcome → Nat
  | .exited s => (s &&& 0xff) <<< 8
  | .signaled g => g &&& 0o177

/-- The environment of one ExecuteScript run: which fallible system
calls fail, what the script itself does, and the indeterminate word
left in the uninitialized `childStatus` when waitpid fails. -/
structure ExecWorld where
  forkFails : Bool
  sanitizeFails : Bool   -- some fcntl(F_SETFD) fails with errno ≠ EBADF
  execFails : Bool       -- execl fails
  scriptOutcome : ChildOutcome
  waitFails : Bool       -- waitpid does not return childPid
  strayStatus : Nat      -- uninitialized childStatus read if waitFails
deriving DecidableEq, Repr

/-- snprintf(uidStr, sizeof(uidStr), "%d", uid): the uid_t value (a
32-bit unsigned integer) printed through the signed %d conversion. -/
def uidArgStr (uid : Nat) : String :=
  if uid % 4294967296 < 2147483648 then
    toString ((uid % 4294967296 : Nat) : Int)
  else
    toString (((uid % 4294967296 : Nat) : Int) - 4294967296)

/-- The argument vector of execl(path, path, uidStr, NULL)
(line 337): argument zero is the script path, the sole argument is the
%d rendering of the uid. -/
def childArgv (pathStr : String) (uid : Nat) : List String :=
  [pathStr, uidArgStr uid]

/-- How the child process of ExecuteScript terminates (lines 311-342):
a descriptor-sanitization failure makes it exit(EX_NOPERM); otherwise,
if execl fails it exits(EX_OSERR); otherwise the process image is the
script and the outcome is whatever the script does. -/
def childOutcomeOf (w : ExecWorld) : ChildOutcome :=
  if w.sanitizeFails then .exited EX_NOPERM
  else if w.execFails then .exited EX_OSERR
  else w.scriptOutcome

/-- The observable outcome of one ExecuteScript run: the decision the
function returns, plus whether a child process was actually created
(fork reached and successful). -/
structure ExecResult where
  result : AuthorizationResult
  spawned : Bool
deriving DecidableEq, Repr

/-- ExecuteScript (lines 286-367).  `result` starts as Allow; a failed
verification returns it at once; a failed fork leaves it; otherwise the
parent waits and inspects `childStatus` — which is the kernel word for
the child outcome when waitpid succeeded, and the uninitialized stack
word when it failed (the C code inspects it regardless).  A status that
is not a signal death and has WEXITSTATUS equal to EX_NOPERM flips the
result to Deny.  The gid argument only affects the credentials the
child drops to, never the decision, and setgid/setuid results are
unchecked in the source, so gid does not appear in the outcome. -/
def ExecuteScript (fs : FS) (path : FsPath) (uid gid : Nat)
    (w : ExecWorld) : ExecResult :=
  if VerifyScript fs path = false then ⟨.allow, false⟩
  else if w.forkFails then ⟨.allow, false⟩
  else
    let childStatus := if w.waitFails then w.strayStatus
                       else waitWord (childOutcomeOf w)
    if WIFSIGNALED childStatus then ⟨.allow, true⟩
    else if WEXITSTATUS childStatus = EX_NOPERM then ⟨.deny, true⟩
    else ⟨.allow, true⟩

/-! ### MechanismCreate (LoginScriptPlugin.c lines 155-209) -/

/-- The execution-context tag of a mechanism. -/
inductive userContext where
  | kRunAsRoot
  | kRunAsUser
deriving DecidableEq, Repr

/-- The phase tag of a mechanism. -/
inductive scriptPhase where
  | kRunBeforeHomedirMount
  | kRunAfterHomedirMount
deriving DecidableEq, Repr

/-- The per-mechanism data MechanismCreate fills in that determines
behaviour (fMagic, fEngine and fPlugin are opaque plumbing). -/
structure MechanismRecord where
  fContext : userContext
  fPhase : scriptPhase
deriving DecidableEq, Repr

/-- Security/Authorization.h: errAuthorizationInternal. -/
def errAuthorizationInternal : Int := -60008

/-- MechanismCreate (lines 155-209): parse the mechanism ID by string
comparison, failing with errAuthorizationInternal on any unknown ID;
then allocate the record, failing with errAuthorizationInternal if
malloc returns NULL (`mallocOK = false`). -/
def MechanismCreate (mallocOK : Bool) (mechanismId : String) :
    Except Int MechanismRecord :=
  let parsed : Option (userContext × scriptPhase) :=
    if mechanismId = "premount-root" then
      some (.kRunAsRoot, .kRunBeforeHomedirMount)
    else if mechanismId = "premount-user" then
      some (.kRunAsUser, .kRunBeforeHomedirMount)
    else if mechanismId = "postmount-root" then
      some (.kRunAsRoot, .kRunAfterHomedirMount)
    else if mechanismId = "postmount-user" then
      some (.kRunAsUser, .kRunAfterHomedirMount)
    else none
  match parsed with
  | none => .error errAuthorizationInternal
  | some (context, phase) =>
    if mallocOK then .ok ⟨context, phase⟩
    else .error errAuthorizationInternal

/-! ### MechanismInvoke (LoginScriptPlugin.c lines 374-433) -/

/-- `#define NOBODY -2`, compared against uid_t: (uid_t)(-2). -/
def NOBODY : Nat := 4294967294

/-- kLoginScriptDir = "/Library/Application Support/LoginScriptPlugin",
in leaf-first component form. -/
def kLoginScriptDir : FsPath :=
  ["LoginScriptPlugin", "Application Support", "Library"]

def phaseName : scriptPhase → String
  | .kRunBeforeHomedirMount => "premount"
  | .kRunAfterHomedirMount => "postmount"

def contextName : userContext → String
  | .kRunAsRoot => "root"
  | .kRunAsUser => "user"

/-- The script path snprintf builds (lines 417-420):
kLoginScriptDir/<phase>-<context>. -/
def scriptPath (phase : scriptPhase) (context : userContext) : FsPath :=
  (phaseName phase ++ "-" ++ contextName context) :: kLoginScriptDir

/-- The environment of one MechanismInvoke run: what the two
GetContextValue lookups produce (`none` = the callback did not return
errAuthorizationSuccess; `some v` = it succeeded and the value blob,
read through a uid_t cast, is `v`), plus the filesystem and the
ExecuteScript environment. -/
structure InvokeWorld where
  uidLookup : Option Nat
  gidLookup : Option Nat
  fs : FS
  exec : ExecWorld

/-- MechanismInvoke (lines 374-433).  In root context uid = gid = 0;
otherwise each identity comes from GetContextValue, with NOBODY
substituted on lookup failure.  If either value is NOBODY the script is
skipped (the path is never built, ExecuteScript is never reached) and
the default Allow stands; otherwise the script path is built and
ExecuteScript runs.  The returned pair is the decision passed to
SetResult together with the spawned flag of the run (false when
ExecuteScript was never called). -/
def MechanismInvoke (m : MechanismRecord) (w : InvokeWorld) : ExecResult :=
  let uid : Nat :=
    if m.fContext = .kRunAsRoot then 0
    else match w.uidLookup with
      | none => NOBODY
      | some v => v % 4294967296
  let gid : Nat :=
    if m.fContext = .kRunAsRoot then 0
    else match w.gidLookup with
      | none => NOBODY
      | some v => v % 4294967296
  if uid = NOBODY ∨ gid = NOBODY then ⟨.allow, false⟩
  else ExecuteScript w.fs (scriptPath m.fPhase m.fContext) uid gid w.exec

/-! ### Concrete filesystems and environments used as test inputs -/

/-- A healthy stat record for a root-owned directory, mode 0755. -/
def dirStat : FileStat := ⟨1, 0o040755, 0, 0⟩

/-- A healthy stat record for a root-owned 0755 regular file. -/
def fileStat : FileStat := ⟨1, 0o100755, 0, 0⟩

/-- A directory owned by root, mode 0655: identical to `dirStat` except
that the owner-execute bit is absent. -/
def dirStatNoExec : FileStat := ⟨1, 0o040655, 0, 0⟩

/-- A root-owned 0757 regular file: world writable. -/
def fileStatWorldW : FileStat := ⟨1, 0o100757, 0, 0⟩

/-- The healthy filesystem: / and /dir are trusted directories and
/dir/script is a trusted executable script. -/
def fsGood : FS := fun p =>
  if p = [] then some dirStat
  else if p = ["dir"] then some dirStat
  else if p = ["script", "dir"] then some fileStat
  else none

/-- Like `fsGood`, except the intermediate directory /dir lacks the
owner-execute bit; every other condition of every node still holds. -/
def fsNoExecDir : FS := fun p =>
  if p = [] then some dirStat
  else if p = ["dir"] then some dirStatNoExec
  else if p = ["script", "dir"] then some fileStat
  else none

/-- Like `fsGood`, except the leaf is world writable. -/
def fsWorldW : FS := fun p =>
  if p = [] then some dirStat
  else if p = ["dir"] then some dirStat
  else if p = ["script", "dir"] then some fileStatWorldW
  else none

/-- The path /dir/script in leaf-first component form. -/
def pScript : FsPath := ["script", "dir"]

theorem fsGood_verifies : VerifyScript fsGood pScript = true := by decide

theorem fsWorldW_rejected : VerifyScript fsWorldW pScript = false := by decide

/-! ### Classification of wait-status words -/

theorem and_255_eq (x : Nat) : x &&& 255 = x % 256 := by
  have h : (255 : Nat) = 2 ^ 8 - 1 := by norm_num
  rw [h, Nat.and_pow_two_sub_one_eq_mod]

theorem and_127_eq (x : Nat) : x &&& 127 = x % 128 := by
  have h : (127 : Nat) = 2 ^ 7 - 1 := by norm_num
  rw [h, Nat.and_pow_two_sub_one_eq_mod]

theorem wifsignaled_exited (s : Nat) :
    WIFSIGNALED (waitWord (.exited s)) = false := by
  have h : wstatus (waitWord (.exited s)) = 0 := by
    simp only [wstatus, waitWord, and_255_eq, and_127_eq, Nat.shiftLeft_eq]
    omega
  simp [WIFSIGNALED, h]

theorem wexitstatus_exited (s : Nat) (h : s < 256) :
    WEXITSTATUS (waitWord (.exited s)) = s := by
  simp only [WEXITSTATUS, waitWord, and_255_eq, Nat.shiftLeft_eq,
    Nat.shiftRight_eq_div_pow]
  omega

theorem wifsignaled_signaled (g : Nat) (h0 : 0 < g) (h1 : g < 127) :
    WIFSIGNALED (waitWord (.signaled g)) = true := by
  have h : wstatus (waitWord (.signaled g)) = g := by
    simp only [wstatus, waitWord, and_127_eq]
    omega
  simp only [WIFSIGNALED, h, Bool.and_eq_true, bne_iff_ne, ne_eq]
  omega

/-- For a well-formed child outcome, the parent branch of ExecuteScript
classifies the kernel wait word as a deny exactly on a normal exit with
status EX_NOPERM. -/
theorem deny_word_iff_exited77 (o : ChildOutcome) (hwf : o.wf) :
    (WIFSIGNALED (waitWord o) = false ∧ WEXITSTATUS (waitWord o) = EX_NOPERM)
      ↔ o = ChildOutcome.exited 77 := by
  cases o with
  | exited s =>
    have hs : s < 256 := hwf
    simp only [wifsignaled_exited, wexitstatus_exited s hs, EX_NOPERM,
      ChildOutcome.exited.injEq, true_and]
  | signaled g =>
    obtain ⟨h0, h1⟩ := hwf
    simp [wifsignaled_signaled g h0 h1]

/-- The child outcome is well formed whenever the script outcome is:
the two internal exits use the one-byte statuses 77 and 71. -/
theorem childOutcomeOf_wf (w : ExecWorld) (h : w.scriptOutcome.wf) :
    (childOutcomeOf w).wf := by
  unfold childOutcomeOf
  split_ifs with h1 h2
  · decide
  · decide
  · exact h

/-! ### Claims about VerifyScript -/

/-- The four per-node trust conditions claim C1 lists: not a symbolic
link, owned by uid 0, not world-writable, not group-writable unless the
owning group is gid 0. -/
def trustedC1 (i : FileStat) : Prop :=
  S_ISLNK i.st_mode = false ∧ i.st_uid = 0 ∧ i.st_mode &&& S_IWOTH = 0 ∧
  (i.st_mode &&& S_IWGRP ≠ 0 → i.st_gid = 0)

instance (i : FileStat) : Decidable (trustedC1 i) := by
  unfold trustedC1; infer_instance

/-- Claim C1: VerifyScript(path) returns true only if every filesystem
node from the path up to and including the root is not a symbolic link,
owned by uid 0, not world-writable, and not group-writable unless its
owning group is gid 0; and any node of the chain that violates one of
these conditions forces VerifyScript to return false. -/
theorem c1_chain_trust (fs : FS) (p : FsPath) :
    (VerifyScript fs p = true →
      ∀ q ∈ chain p, ∃ info, fs q = some info ∧ trustedC1 info) ∧
    (∀ q ∈ chain p, ∀ info, fs q = some info → ¬ trustedC1 info →
      VerifyScript fs p = false) := by
  have main : VerifyScript fs p = true →
      ∀ q ∈ chain p, ∃ info, fs q = some info ∧ trustedC1 info := by
    intro h q hq
    have hn := verify_chain_nodes fs p h q hq
    rw [verifyNode_eq_true_iff] at hn
    obtain ⟨r, i, hr, hi, hdev, hlnk, huid, hwoth, hwgrp, hx⟩ := hn
    refine ⟨i, hi, hlnk, huid, hwoth, fun hw => ?_⟩
    by_contra hg
    exact hwgrp ⟨hw, hg⟩
  refine ⟨main, ?_⟩
  intro q hq info hinfo hnot
  cases hV : VerifyScript fs p with
  | false => rfl
  | true =>
    obtain ⟨i, hi, ht⟩ := main hV q hq
    rw [hinfo] at hi
    cases Option.some.inj hi
    exact absurd ht hnot

/-- Witness for C1, from the flip direction: a chain whose leaf is
world-writable is rejected. -/
theorem c1_chain_trust_witness : VerifyScript fsWorldW pScript = false :=
  (c1_chain_trust fsWorldW pScript).2 pScript (by decide) fileStatWorldW
    (by decide) (by decide)

/-- The per-node conditions of claim C1 (including being on the root
device), as an executable check; this is everything VerifyScript tests
on a node except the owner-execute bit. -/
def nodeCheckExceptExec (fs : FS) (q : FsPath) : Bool :=
  match fs [], fs q with
  | some rootInfo, some info =>
      (info.st_dev == rootInfo.st_dev) &&
      !(S_ISLNK info.st_mode) &&
      (info.st_uid == 0) &&
      (info.st_mode &&& S_IWOTH == 0) &&
      !((info.st_mode &&& S_IWGRP != 0) && (info.st_gid != 0))
  | _, _ => false

/-- The leaf-only owner-execute condition of the specification. -/
def leafExecCheck (fs : FS) (q : FsPath) : Bool :=
  match fs q with
  | some info => info.st_mode &&& S_IXUSR != 0
  | none => false

/-- Counterexample to claim C2 (the owner-execute requirement applies
only to the leaf): in `fsNoExecDir` every node of the chain of
/dir/script passes every non-execute condition, the leaf is
owner-executable, and the only deviation is the missing owner-execute
bit on the ancestor /dir — yet VerifyScript returns false, because the
source checks the execute bit on every node (line 265 runs before the
recursion of line 278). -/
theorem c2_counterexample :
    ((chain pScript).all (nodeCheckExceptExec fsNoExecDir)) = true ∧
    leafExecCheck fsNoExecDir pScript = true ∧
    fsNoExecDir ["dir"] = some dirStatNoExec ∧
    dirStatNoExec.st_mode &&& S_IXUSR = 0 ∧
    VerifyScript fsNoExecDir pScript = false := by
  refine ⟨by decide, by decide, by decide, by decide, by decide⟩

/-- Claim C2 amended: the owner-execute requirement applies to every
node of the chain, ancestors and root included — whenever VerifyScript
returns true, every node from the path up to the root has the
owner-execute bit set. -/
theorem c2_amended_exec_every_node (fs : FS) (p : FsPath)
    (h : VerifyScript fs p = true) :
    ∀ q ∈ chain p, ∃ info, fs q = some info ∧
      info.st_mode &&& S_IXUSR ≠ 0 := by
  intro q hq
  have hn := verify_chain_nodes fs p h q hq
  rw [verifyNode_eq_true_iff] at hn
  obtain ⟨r, i, hr, hi, _, _, _, _, _, hx⟩ := hn
  exact ⟨i, hi, hx⟩

/-- Witness for the amended C2: in the healthy filesystem the verified
chain has the execute bit on the ancestor directory. -/
theorem c2_amended_witness :
    ∃ info, fsGood ["dir"] = some info ∧
      info.st_mode &&& S_IXUSR ≠ 0 :=
  c2_amended_exec_every_node fsGood pScript (by decide) ["dir"] (by decide)

/-! ### Claims about ExecuteScript -/

/-- Claim C3: for a verified script (and a run in which fork and
waitpid succeed, so that a child exists and its termination is actually
observed), ExecuteScript returns Deny if and only if the child exited
normally with status 77; any other exit status, and death by signal,
yield Allow. -/
theorem c3_deny_iff_exit77 (fs : FS) (p : FsPath) (uid gid : Nat)
    (w : ExecWorld) (hv : VerifyScript fs p = true)
    (hf : w.forkFails = false) (hw : w.waitFails = false)
    (hwf : w.scriptOutcome.wf) :
    (ExecuteScript fs p uid gid w).result = .deny ↔
      childOutcomeOf w = .exited 77 := by
  have hwf2 := childOutcomeOf_wf w hwf
  rw [← deny_word_iff_exited77 (childOutcomeOf w) hwf2]
  unfold ExecuteScript
  simp only [hv, hf, hw, Bool.false_eq_true, if_false]
  split_ifs with h1 h2 <;> simp_all

/-- Witness for C3: the healthy filesystem with a script that exits 77
produces Deny. -/
def wExit77 : ExecWorld := ⟨false, false, false, .exited 77, false, 0⟩

theorem c3_witness :
    (ExecuteScript fsGood pScript 501 20 wExit77).result = .deny :=
  (c3_deny_iff_exit77 fsGood pScript 501 20 wExit77 (by decide) rfl rfl
    (by decide)).mpr rfl

/-- Claim C6: a path that fails verification makes ExecuteScript return
Allow at once, with no child process spawned. -/
theorem c6_unverified_allow (fs : FS) (p : FsPath) (uid gid : Nat)
    (w : ExecWorld) (h : VerifyScript fs p = false) :
    ExecuteScript fs p uid gid w = ⟨.allow, false⟩ := by
  unfold ExecuteScript
  rw [if_pos h]

/-- The empty filesystem: lstat fails on everything. -/
def fsEmpty : FS := fun _ => none

/-- Witness for C6. -/
theorem c6_witness : ExecuteScript fsEmpty pScript 0 0 wExit77 = ⟨.allow, false⟩ :=
  c6_unverified_allow fsEmpty pScript 0 0 wExit77 (by decide)

/-- The run in which the child fails to sanitize a descriptor (fcntl
error other than EBADF) while the script itself, had it run, would have
exited 0. -/
def wSanitizeFail : ExecWorld := ⟨false, true, false, .exited 0, false, 0⟩

/-- Counterexample to claim C7 (no internal failure ever produces
Deny): a descriptor-sanitization failure makes the child exit(EX_NOPERM)
(line 331), which the parent reads as the deny status — Deny is
produced although the script never deliberately exited 77 (here it
would have exited 0). -/
theorem c7_counterexample :
    wSanitizeFail.sanitizeFails = true ∧
    wSanitizeFail.scriptOutcome = .exited 0 ∧
    (ExecuteScript fsGood pScript 501 20 wSanitizeFail).result = .deny := by
  refine ⟨rfl, rfl, by decide⟩

/-- Claim C7 amended: Deny requires that verification passed and fork
succeeded, and then arises only when the parent observes a wait status
decoding as a normal exit with status 77 — either waitpid succeeded and
the child really exited 77 (deliberately, or because descriptor
sanitization failed and the child itself exited with the deny status),
or waitpid failed and the indeterminate leftover status word happens to
decode as exit 77.  Verification failures, fork failures and exec
failures never produce Deny (an exec failure exits 71). -/
theorem c7_amended_deny_sources (fs : FS) (p : FsPath) (uid gid : Nat)
    (w : ExecWorld) (hwf : w.scriptOutcome.wf) :
    (ExecuteScript fs p uid gid w).result = .deny →
      VerifyScript fs p = true ∧ w.forkFails = false ∧
        ((w.waitFails = true ∧ WIFSIGNALED w.strayStatus = false ∧
            WEXITSTATUS w.strayStatus = EX_NOPERM) ∨
         (w.waitFails = false ∧
            (w.sanitizeFails = true ∨ w.scriptOutcome = .exited 77))) := by
  intro hden
  unfold ExecuteScript at hden
  by_cases hv : VerifyScript fs p = false
  · rw [if_pos hv] at hden
    exact absurd hden (by decide)
  rw [if_neg hv] at hden
  have hv2 : VerifyScript fs p = true := by
    cases hV : VerifyScript fs p
    · exact absurd hV hv
    · rfl
  by_cases hf : w.forkFails
  · rw [if_pos hf] at hden
    exact absurd hden (by decide)
  rw [if_neg hf] at hden
  refine ⟨hv2, by simpa using hf, ?_⟩
  cases hwait : w.waitFails with
  | true =>
    rw [hwait] at hden
    simp only [if_true] at hden
    left
    refine ⟨rfl, ?_, ?_⟩ <;>
      by_contra hc <;> simp [hc] at hden
  | false =>
    rw [hwait] at hden
    simp only [Bool.false_eq_true, if_false] at hden
    right
    refine ⟨rfl, ?_⟩
    have hword : WIFSIGNALED (waitWord (childOutcomeOf w)) = false ∧
        WEXITSTATUS (waitWord (childOutcomeOf w)) = EX_NOPERM := by
      constructor <;> by_contra hc <;> simp [hc] at hden
    have h77 := (deny_word_iff_exited77 (childOutcomeOf w)
      (childOutcomeOf_wf w hwf)).mp hword
    unfold childOutcomeOf at h77
    by_cases hs : w.sanitizeFails
    · exact Or.inl (by simpa using hs)
    rw [if_neg hs] at h77
    by_cases he : w.execFails
    · rw [if_pos he] at h77
      exact absurd h77 (by decide)
    rw [if_neg he] at h77
    exact Or.inr h77

/-- Witness for the amended C7, at the sanitization-failure run. -/
theorem c7_amended_witness :
    VerifyScript fsGood pScript = true ∧ wSanitizeFail.forkFails = false ∧
      ((wSanitizeFail.waitFails = true ∧
          WIFSIGNALED wSanitizeFail.strayStatus = false ∧
          WEXITSTATUS wSanitizeFail.strayStatus = EX_NOPERM) ∨
       (wSanitizeFail.waitFails = false ∧
          (wSanitizeFail.sanitizeFails = true ∨
            wSanitizeFail.scriptOutcome = .exited 77))) :=
  c7_amended_deny_sources fsGood pScript 501 20 wSanitizeFail (by decide)
    (by decide)

/-- The run in which waitpid fails while the script exited 0, and the
uninitialized childStatus stack word happens to hold 19712 = 77 * 256,
i.e. the encoding of a normal exit with status 77. -/
def wWaitGarbage : ExecWorld := ⟨false, false, false, .exited 0, true, 19712⟩

/-- Demonstration for claim C8 (code bug): when waitpid fails, the C
code logs but then still inspects the never-initialized childStatus
(lines 347-363).  If the garbage word decodes as a normal exit with
status 77, the run returns Deny although the child actually exited 0 —
the claimed (and documented) behaviour of returning the default Allow
on a wait failure is not guaranteed by the code. -/
theorem c8_wait_failure_garbage_deny :
    wWaitGarbage.waitFails = true ∧
    wWaitGarbage.scriptOutcome = .exited 0 ∧
    (ExecuteScript fsGood pScript 501 20 wWaitGarbage).result = .deny := by
  refine ⟨rfl, rfl, by decide⟩

/-- Counterexample to claim C9 (the sole argument is the decimal string
form of the target uid): the child builds the argument with
snprintf("%d", uid), a signed 32-bit conversion, so the uid_t value
4294967294 is passed as "-2" and not as its decimal form
"4294967294". -/
theorem c9_counterexample :
    childArgv "/Library/Application Support/LoginScriptPlugin/premount-user"
        4294967294
      = ["/Library/Application Support/LoginScriptPlugin/premount-user",
         "-2"] ∧
    toString (4294967294 : Nat) = "4294967294" ∧
    ("-2" : String) ≠ "4294967294" := by
  refine ⟨by decide, by decide, by decide⟩

/-- Claim C9 amended: the child replaces its image with exactly two
argument-vector entries — argument zero is the script path and the sole
argument is the uid printed through the signed 32-bit %d conversion,
which coincides with the decimal form of the uid whenever the uid is
below 2^31 — and if the image replacement fails the child terminates
with status 71 (EX_OSERR), distinct from the deny status 77
(EX_NOPERM). -/
theorem c9_amended_child_exec (pathStr : String) (uid : Nat)
    (w : ExecWorld) (hu : uid < 2147483648)
    (hs : w.sanitizeFails = false) (he : w.execFails = true) :
    childArgv pathStr uid = [pathStr, uidArgStr uid] ∧
    uidArgStr uid = toString uid ∧
    childOutcomeOf w = .exited EX_OSERR ∧
    EX_OSERR ≠ EX_NOPERM := by
  refine ⟨rfl, ?_, ?_, by decide⟩
  · unfold uidArgStr
    have hm : uid % 4294967296 = uid := Nat.mod_eq_of_lt (by omega)
    rw [hm, if_pos hu]
    rfl
  · unfold childOutcomeOf
    rw [hs, he]
    rfl

/-- Witness for the amended C9, at uid 501 with a failing execl. -/
def wExecFail : ExecWorld := ⟨false, false, true, .exited 0, false, 0⟩

theorem c9_amended_witness :
    childArgv "/Library/Application Support/LoginScriptPlugin/premount-user"
        501
      = ["/Library/Application Support/LoginScriptPlugin/premount-user",
         uidArgStr 501] ∧
    uidArgStr 501 = toString 501 ∧
    childOutcomeOf wExecFail = .exited EX_OSERR ∧
    EX_OSERR ≠ EX_NOPERM :=
  c9_amended_child_exec
    "/Library/Application Support/LoginScriptPlugin/premount-user"
    501 wExecFail (by decide) rfl rfl

/-! ### Claims about the mechanism entry points -/

/-- Claim C4: the four mode strings map to their documented
(context, phase) pairs — premount/postmount is BeforeHomeMount /
AfterHomeMount and root/user is the Administrative / TargetUser context
— and every other string fails with errAuthorizationInternal and
produces no instance. -/
theorem c4_create_mapping :
    MechanismCreate true "premount-root"
      = .ok ⟨.kRunAsRoot, .kRunBeforeHomedirMount⟩ ∧
    MechanismCreate true "premount-user"
      = .ok ⟨.kRunAsUser, .kRunBeforeHomedirMount⟩ ∧
    MechanismCreate true "postmount-root"
      = .ok ⟨.kRunAsRoot, .kRunAfterHomedirMount⟩ ∧
    MechanismCreate true "postmount-user"
      = .ok ⟨.kRunAsUser, .kRunAfterHomedirMount⟩ ∧
    (∀ (mallocOK : Bool) (s : String),
      s ≠ "premount-root" → s ≠ "premount-user" →
      s ≠ "postmount-root" → s ≠ "postmount-user" →
      MechanismCreate mallocOK s = .error errAuthorizationInternal) := by
  refine ⟨rfl, rfl, rfl, rfl, ?_⟩
  intro mallocOK s h1 h2 h3 h4
  unfold MechanismCreate
  simp [h1, h2, h3, h4]

/-- Witness for C4, at an unrecognized mechanism ID. -/
theorem c4_create_mapping_witness :
    MechanismCreate true "loginscript" = .error errAuthorizationInternal :=
  c4_create_mapping.2.2.2.2 true "loginscript" (by decide) (by decide)
    (by decide) (by decide)

/-- Claim C5: in TargetUser context, if the uid lookup or the gid
lookup fails, MechanismInvoke never reaches the path construction or
ExecuteScript (so nothing is spawned) and reports Allow. -/
theorem c5_lookup_failure_allows (m : MechanismRecord) (w : InvokeWorld)
    (hctx : m.fContext = .kRunAsUser)
    (h : w.uidLookup = none ∨ w.gidLookup = none) :
    MechanismInvoke m w = ⟨.allow, false⟩ := by
  unfold MechanismInvoke
  rw [hctx]
  rcases h with h | h <;> rw [h] <;> simp [NOBODY]

/-- The TargetUser postmount mechanism. -/
def mUser : MechanismRecord := ⟨.kRunAsUser, .kRunAfterHomedirMount⟩

/-- An invocation in which the uid lookup fails and the gid lookup
returns 20. -/
def wNoUid : InvokeWorld := ⟨none, some 20, fsGood, wExit77⟩

/-- Witness for C5. -/
theorem c5_witness : MechanismInvoke mUser wNoUid = ⟨.allow, false⟩ :=
  c5_lookup_failure_allows mUser wNoUid rfl (Or.inl rfl)

/-- Claim C10: a successful lookup whose value is the sentinel
(uid_t)(-2) = 4294967294 is indistinguishable from a failed lookup: the
script is skipped, Allow is reported, and the outcome equals that of
the run in which both lookups failed. -/
theorem c10_nobody_like_failure (m : MechanismRecord) (w : InvokeWorld)
    (hctx : m.fContext = .kRunAsUser)
    (h : w.uidLookup = some NOBODY ∨ w.gidLookup = some NOBODY) :
    MechanismInvoke m w = ⟨.allow, false⟩ ∧
    MechanismInvoke m w
      = MechanismInvoke m ⟨none, none, w.fs, w.exec⟩ := by
  have hnone : MechanismInvoke m ⟨none, none, w.fs, w.exec⟩
      = ⟨.allow, false⟩ :=
    c5_lookup_failure_allows m ⟨none, none, w.fs, w.exec⟩ hctx (Or.inl rfl)
  have hthis : MechanismInvoke m w = ⟨.allow, false⟩ := by
    unfold MechanismInvoke
    rw [hctx]
    rcases h with h | h <;> rw [h] <;> simp [NOBODY]
  exact ⟨hthis, hthis.trans hnone.symm⟩

/-- An invocation in which the uid lookup succeeds and returns the
sentinel value 4294967294. -/
def wNobodyUid : InvokeWorld := ⟨some NOBODY, some 20, fsGood, wExit77⟩

/-- Witness for C10. -/
theorem c10_witness :
    MechanismInvoke mUser wNobodyUid = ⟨.allow, false⟩ ∧
    MechanismInvoke mUser wNobodyUid
      = MechanismInvoke mUser ⟨none, none, wNobodyUid.fs, wNobodyUid.exec⟩ :=
  c10_nobody_like_failure mUser wNobodyUid rfl (Or.inl rfl)
